import Mathlib

/-!
Verification of the wally-backend payment service.

Shallow embedding of the transaction lifecycle engine and its collaborators:
  * data model          — prisma/migrations/20260123144619_init/migration.sql
  * transaction service — src/modules/transaction/transaction.service.ts
  * transaction worker  — the BullMQ worker (processTransaction)
  * wallet service      — src/modules/wallet/wallet.service.ts
  * wallet crypto       — src/modules/wallet/wallet.crypto.ts
  * stellar gateway     — src/modules/stellar/stellar.service.ts
  * HTTP controller     — src/modules/transaction/transaction.controller.ts

Monetary values are 7-fractional-digit fixed-point decimals (DECIMAL(20,7)
in the schema, native Stellar precision); they are embedded as Int values
scaled by 10^7.  Timestamps are Int milliseconds since the epoch, with the
server-local midnight of the JS Date model identified with the UTC midnight
of the model.  All database and network effects are passed explicitly:
each service operation takes the database value and returns the (possibly
updated) database value together with an Except result mirroring thrown
application errors.
-/

namespace Wally

/-- Fixed-point scale: one XLM is 10^7 stroop-sized units. -/
def SCALE : Int := 10000000

/-- Milliseconds in one day, the constant 1000*60*60*24 from the source. -/
def MS_PER_DAY : Int := 86400000

inductive UserStatus where
  | ACTIVE | BLOCKED | SUSPENDED
  deriving DecidableEq, Repr

inductive WalletStatus where
  | ACTIVE | FROZEN | CLOSED
  deriving DecidableEq, Repr

inductive TxStatus where
  | CREATED | PENDING | SUCCESS | FAILED | CANCELLED
  deriving DecidableEq, Repr

inductive TxType where
  | FUNDING | P2P_SEND | P2P_RECEIVE
  deriving DecidableEq, Repr

/-- users table row (fields used by the embedded operations). -/
structure User where
  id : String
  keycloakId : String
  handle : String
  status : UserStatus
  deriving DecidableEq, Repr

/-- wallets table row. -/
structure Wallet where
  id : String
  userId : String
  stellarPublicKey : String
  stellarSecretKey : String
  encryptionIV : String
  balance : Int
  status : WalletStatus
  lastFundedAt : Option Int
  fundingCount : Nat
  dailyFundingSum : Int
  lastResetDate : Int
  deriving DecidableEq, Repr

/-- metadata JSON written by sendPayment: handle snapshot at creation. -/
structure TxnMetadata where
  senderHandle : String
  recipientHandle : String
  deriving DecidableEq, Repr

/-- transactions table row. -/
structure Txn where
  id : String
  senderId : String
  receiverId : String
  amount : Int
  type : TxType
  status : TxStatus
  stellarTxHash : Option String
  stellarLedger : Option Nat
  idempotencyKey : Option String
  failureReason : Option String
  retryCount : Nat
  metadata : Option TxnMetadata
  createdAt : Int
  completedAt : Option Int
  deriving DecidableEq, Repr

/-- The application error classes of src/utils (errors module), carrying the
constructor arguments that matter to the claims.  InsufficientBalanceError
stores the required/available strings that the source puts into its
metadata. -/
inductive AppError where
  | validation (message : String)
  | notFound (resource : String)
  | userBlocked (userId : String)
  | walletFrozen (walletId : String)
  | insufficientBalance (required : String) (available : String)
  | limitExceeded (message : String)
  | rateLimitExceeded (message : String)
  | internalServer (message : String)
  | stellar (message : String)
  | forbidden (message : String)
  deriving DecidableEq, Repr

/-! ### Decimal string rendering

Models of Number.prototype.toFixed(7) and of Prisma Decimal.toString on
values that are exactly representable in 7 fractional digits (every value
in this development is: the schema type is DECIMAL(20,7)). -/

def natToChars (n : Nat) : List Char := (toString n).data

def padLeftZeros (s : List Char) (n : Nat) : List Char :=
  List.replicate (n - s.length) '0' ++ s

def trimTrailingZeros (l : List Char) : List Char :=
  (l.reverse.dropWhile (fun c => c = '0')).reverse

/-- x.toFixed(7) for a scaled fixed-point value. -/
def toFixed7 (v : Int) : String :=
  let sign := if v < 0 then "-" else ""
  let a := v.natAbs
  sign ++ String.mk (natToChars (a / 10000000)) ++ "." ++
    String.mk (padLeftZeros (natToChars (a % 10000000)) 7)

/-- Decimal.toString (also Number toString) for a scaled fixed-point value:
no trailing fractional zeros, no fractional point for integral values. -/
def decimalToString (v : Int) : String :=
  let sign := if v < 0 then "-" else ""
  let a := v.natAbs
  let ip := a / 10000000
  let fp := a % 10000000
  if fp = 0 then sign ++ String.mk (natToChars ip)
  else sign ++ String.mk (natToChars ip) ++ "." ++
    String.mk (trimTrailingZeros (padLeftZeros (natToChars fp) 7))

/-! ### Amount parsing

Model of parseFloat on the decimal grammar that the API amount schema
(regex digits optionally followed by a point and up to seven fraction
digits) admits, extended with an optional leading sign; strings outside
that grammar are modelled as NaN (none).  Fraction digits beyond the
seventh are truncated, which agrees with parseFloat on every string the
system accepts. -/

def splitOnChar (sep : Char) : List Char → List (List Char)
  | [] => [[]]
  | c :: rest =>
    match splitOnChar sep rest with
    | [] => [[]]
    | h :: t => if c = sep then [] :: h :: t else (c :: h) :: t

def digitVal (c : Char) : Option Nat :=
  if c.isDigit then some (c.toNat - 48) else none

def parseDigitsAux : List Char → Nat → Option Nat
  | [], acc => some acc
  | c :: rest, acc =>
    match digitVal c with
    | some d => parseDigitsAux rest (acc * 10 + d)
    | none => none

/-- Value of a fraction-digit list in units of 10^-7. -/
def fracValue (fp : List Char) : Option Nat :=
  parseDigitsAux (fp.take 7 ++ List.replicate (7 - fp.length) '0') 0

def parseDecimal (s : String) : Option Int :=
  match s.data with
  | [] => none
  | l =>
    let neg := l.head? = some '-'
    let l2 := if neg then l.tail else l
    if l2.isEmpty then none
    else
      match splitOnChar '.' l2 with
      | [ip] =>
        if ip.isEmpty then none
        else (parseDigitsAux ip 0).map
          (fun n => (if neg then -1 else 1) * ((n : Int) * 10000000))
      | [ip, fp] =>
        if ip.isEmpty && fp.isEmpty then none
        else
          match parseDigitsAux ip 0, fracValue fp with
          | some n, some f =>
            some ((if neg then -1 else 1) * ((n : Int) * 10000000 + (f : Int)))
          | _, _ => none
      | _ => none

/-- Zod regex on the controller amount field: digits, optionally a point and
one to seven fraction digits. -/
def amountRegexOk (s : String) : Bool :=
  match splitOnChar '.' s.data with
  | [ip] => !ip.isEmpty && ip.all Char.isDigit
  | [ip, fp] =>
    !ip.isEmpty && ip.all Char.isDigit && !fp.isEmpty &&
      decide (fp.length ≤ 7) && fp.all Char.isDigit
  | _ => false

/-! ### Database state and configuration -/

/-- The relational rows plus the queue substrate jobs (each job payload is
one transaction id) reachable from the embedded operations. -/
structure DB where
  users : List User
  wallets : List Wallet
  transactions : List Txn
  jobs : List String
  nextId : Nat
  deriving DecidableEq, Repr

def findUserById (db : DB) (id : String) : Option User :=
  db.users.find? (fun u => decide (u.id = id))

def findUserByHandle (db : DB) (handle : String) : Option User :=
  db.users.find? (fun u => decide (u.handle = handle))

def findUserByKeycloakId (db : DB) (kc : String) : Option User :=
  db.users.find? (fun u => decide (u.keycloakId = kc))

def findWalletByUserId (db : DB) (uid : String) : Option Wallet :=
  db.wallets.find? (fun w => decide (w.userId = uid))

def findTxnById (db : DB) (id : String) : Option Txn :=
  db.transactions.find? (fun t => decide (t.id = id))

def findTxnByIdemKey (db : DB) (k : String) : Option Txn :=
  db.transactions.find? (fun t => decide (t.idempotencyKey = some k))

def updateWalletRow (ws : List Wallet) (id : String) (w2 : Wallet) : List Wallet :=
  ws.map (fun w => if w.id = id then w2 else w)

def updateTxnRow (ts : List Txn) (id : String) (t2 : Txn) : List Txn :=
  ts.map (fun t => if t.id = id then t2 else t)

/-- src/config/index.ts limits and queue configuration (defaults). -/
structure Config where
  minAmount : Int
  maxAmount : Int
  dailyLimit : Int
  rateLimitMax : Nat
  dailyCapXlm : Int
  maxRetries : Nat
  deriving DecidableEq, Repr

/-- The default configuration values of src/config/index.ts. -/
def defaultConfig : Config :=
  { minAmount := SCALE
    maxAmount := 100000 * SCALE
    dailyLimit := 500000 * SCALE
    rateLimitMax := 3
    dailyCapXlm := 10000 * SCALE
    maxRetries := 3 }

/-- Local midnight of the day containing t (today.setHours(0,0,0,0)). -/
def dayStart (t : Int) : Int := (t.fdiv MS_PER_DAY) * MS_PER_DAY

/-- Calendar-day index of a timestamp, written to the spec wording of
"calendar day" used by the funding-reset sentence; compared against the
rolling-window arithmetic the source actually performs. -/
def specCalendarDay (t : Int) : Int := t.fdiv MS_PER_DAY

/-! ### TransactionService — src/modules/transaction/transaction.service.ts -/

namespace TransactionService

/-- Parameters of TransactionService.sendPayment. -/
structure SendParams where
  senderUserId : String
  recipientHandle : String
  amount : String
  idempotencyKey : Option String
  deriving DecidableEq, Repr

/-- STEP 1 of sendPayment: parseFloat plus the isNaN/range rejection; some
amount means the validation passed. -/
def validateAmount (cfg : Config) (amount : String) : Option Int :=
  match parseDecimal amount with
  | none => none
  | some a =>
    if a ≤ 0 ∨ a < cfg.minAmount ∨ a > cfg.maxAmount then none else some a

/-- STEP 8 aggregate: sum of amounts of PENDING or SUCCESS transactions of
this sender created at or after local midnight. -/
def dailyCommittedSum (db : DB) (senderId : String) (today : Int) : Int :=
  (db.transactions.filter (fun t =>
    t.senderId = senderId ∧ t.createdAt ≥ today ∧
      (t.status = TxStatus.PENDING ∨ t.status = TxStatus.SUCCESS))).foldl
    (fun acc t => acc + t.amount) 0

/-- TransactionService.sendPayment: validate, idempotency short-circuit,
resolve and validate users and wallets, balance and daily-limit checks,
persist the CREATED transaction and enqueue its settlement job.  Errors are
thrown before any write, so the returned database equals the input database
on every error path. -/
def sendPayment (cfg : Config) (db : DB) (now : Int) (p : SendParams) :
    Except AppError Txn × DB :=
  match validateAmount cfg p.amount with
  | none =>
    (.error (.validation ("Amount must be between " ++
      decimalToString cfg.minAmount ++ " and " ++
      decimalToString cfg.maxAmount ++ " XLM")), db)
  | some amountNum =>
    match (match p.idempotencyKey with
           | some k => findTxnByIdemKey db k
           | none => none) with
    | some existing => (.ok existing, db)
    | none =>
      match findUserById db p.senderUserId, findUserByHandle db p.recipientHandle with
      | none, _ => (.error (.notFound "User"), db)
      | some _, none => (.error (.notFound "User"), db)
      | some sender, some recipient =>
        if sender.id = recipient.id then
          (.error (.validation "Cannot send payment to yourself"), db)
        else if sender.status = UserStatus.BLOCKED then
          (.error (.userBlocked sender.id), db)
        else if recipient.status = UserStatus.BLOCKED then
          (.error (.userBlocked recipient.id), db)
        else
          match findWalletByUserId db sender.id, findWalletByUserId db recipient.id with
          | none, _ => (.error (.notFound "Wallet"), db)
          | some _, none => (.error (.notFound "Wallet"), db)
          | some senderWallet, some recipientWallet =>
            if senderWallet.status = WalletStatus.FROZEN then
              (.error (.walletFrozen senderWallet.id), db)
            else if senderWallet.status = WalletStatus.CLOSED then
              (.error (.validation "Sender wallet is closed"), db)
            else if recipientWallet.status = WalletStatus.FROZEN then
              (.error (.walletFrozen recipientWallet.id), db)
            else if recipientWallet.status = WalletStatus.CLOSED then
              (.error (.validation "Recipient wallet is closed"), db)
            else if senderWallet.balance < amountNum then
              (.error (.insufficientBalance p.amount
                (decimalToString senderWallet.balance)), db)
            else
              let today := dayStart now
              let dailySum := dailyCommittedSum db sender.id today
              if dailySum + amountNum > cfg.dailyLimit then
                (.error (.limitExceeded ("Daily transaction limit of " ++
                  decimalToString cfg.dailyLimit ++ " XLM exceeded")), db)
              else
                let txn : Txn :=
                  { id := "tx" ++ toString db.nextId
                    senderId := sender.id
                    receiverId := recipient.id
                    amount := amountNum
                    type := TxType.P2P_SEND
                    status := TxStatus.CREATED
                    stellarTxHash := none
                    stellarLedger := none
                    idempotencyKey := p.idempotencyKey
                    failureReason := none
                    retryCount := 0
                    metadata := some ⟨sender.handle, recipient.handle⟩
                    createdAt := now
                    completedAt := none }
                (.ok txn,
                 { db with
                     transactions := db.transactions ++ [txn]
                     jobs := db.jobs ++ [txn.id]
                     nextId := db.nextId + 1 })

/-- Optional metadata of TransactionService.updateTransactionStatus. -/
structure UpdateMeta where
  stellarTxHash : Option String
  stellarLedger : Option Nat
  failureReason : Option String
  deriving DecidableEq, Repr

def noMeta : UpdateMeta := ⟨none, none, none⟩

/-- The `if (metadata?.stellarTxHash)` merge: set the hash when the field
is present and truthy (non-empty). -/
def mergeHash (t : Txn) (h : Option String) : Txn :=
  match h with
  | some s => if s ≠ "" then { t with stellarTxHash := some s } else t
  | none => t

/-- The `if (metadata?.stellarLedger)` merge: ledger 0 is falsy in JS. -/
def mergeLedger (t : Txn) (l : Option Nat) : Txn :=
  match l with
  | some n => if n ≠ 0 then { t with stellarLedger := some n } else t
  | none => t

/-- The `if (metadata?.failureReason)` merge. -/
def mergeReason (t : Txn) (r : Option String) : Txn :=
  match r with
  | some s => if s ≠ "" then { t with failureReason := some s } else t
  | none => t

/-- TransactionService.updateTransactionStatus applied to the transaction
row: an unconditional overwrite of the status, merging the truthy metadata
fields and stamping completedAt on SUCCESS or FAILED.  The truthiness tests
of the source (empty string, ledger 0) are preserved by the merge
helpers. -/
def updateTransactionStatus (tx : Txn) (status : TxStatus) (md : UpdateMeta)
    (now : Int) : Txn :=
  let t4 := mergeReason (mergeLedger (mergeHash { tx with status := status }
    md.stellarTxHash) md.stellarLedger) md.failureReason
  if status = TxStatus.SUCCESS ∨ status = TxStatus.FAILED then
    { t4 with completedAt := some now }
  else t4

/-- TransactionService.incrementRetryCount applied to the row. -/
def incrementRetryCount (tx : Txn) : Txn :=
  { tx with retryCount := tx.retryCount + 1 }

end TransactionService

/-! ### StellarService — the ledger gateway (src/unnamed/part_006) -/

namespace StellarService

/-- One entry of account.balances in the Horizon response. -/
structure BalanceLine where
  asset_type : String
  balance : String
  deriving DecidableEq, Repr

/-- Outcome of server.loadAccount: the account record, or a thrown error
whose response carries an optional HTTP status. -/
inductive HorizonOutcome where
  | account (balances : List BalanceLine)
  | failure (status : Option Nat)
  deriving DecidableEq, Repr

/-- StellarService.getBalance: the native balance line of the loaded
account (with the JS falsy fallback to "0"), "0" when the load fails with a
404, and a StellarError for every other load failure. -/
def getBalance (r : HorizonOutcome) : Except AppError String :=
  match r with
  | .account balances =>
    match balances.find? (fun b => decide (b.asset_type = "native")) with
    | some nb => .ok (if nb.balance = "" then "0" else nb.balance)
    | none => .ok "0"
  | .failure status =>
    if status = some 404 then .ok "0"
    else .error (.stellar "Failed to get account balance")

/-- Result of a successful StellarService.sendPayment submission. -/
structure GatewayResult where
  hash : String
  ledger : Nat
  deriving DecidableEq, Repr

end StellarService

/-! ### Settlement worker — processTransaction (src/unnamed/part_000) -/

namespace TransactionWorker

/-- The database slice a settlement job sees: the transaction row with its
included sender/receiver users and wallets, the ledger balances the gateway
would report for the two wallets, and a counter of submitPayment calls
(instrumentation for the no-submission claims). -/
structure World where
  tx : Option Txn
  sender : User
  senderWallet : Option Wallet
  receiver : User
  receiverWallet : Option Wallet
  senderLedgerBalance : Int
  receiverLedgerBalance : Int
  submitCalls : Nat
  now : Int
  deriving DecidableEq, Repr

inductive RunOutcome where
  | completed (status : TxStatus)
  | thrown (message : String)
  deriving DecidableEq, Repr

def updateStatus (w : World) (status : TxStatus)
    (md : TransactionService.UpdateMeta) : World :=
  { w with tx := w.tx.map (fun t =>
      TransactionService.updateTransactionStatus t status md w.now) }

/-- STEP 7: walletService.syncBalance on both wallets — each cached balance
is overwritten with the ledger-reported balance. -/
def syncBalances (w : World) : World :=
  { w with
      senderWallet := w.senderWallet.map
        (fun wl => { wl with balance := w.senderLedgerBalance })
      receiverWallet := w.receiverWallet.map
        (fun wl => { wl with balance := w.receiverLedgerBalance }) }

/-- STEP 8, the catch block: increment the retry counter, re-read the row,
and either force FAILED (when retryCount has reached maxRetries - 1) or
rethrow so the queue substrate redelivers. -/
def handleFailure (w : World) (errorMessage : String) (maxRetries : Nat) :
    World × RunOutcome :=
  let w1 := { w with tx := w.tx.map TransactionService.incrementRetryCount }
  match w1.tx with
  | some t =>
    if t.retryCount ≥ maxRetries - 1 then
      let w2 := updateStatus w1 TxStatus.FAILED
        ⟨none, none, some ("Max retries exceeded. Last error: " ++ errorMessage)⟩
      (w2, .completed TxStatus.FAILED)
    else
      (w1, .thrown errorMessage)
  | none => (w1, .thrown errorMessage)

/-- One delivery of a settlement job: processTransaction.  The gateway
outcome of this attempt is the gw argument; decryption of the sender secret
is modelled as always succeeding (its failure joins the catch path exactly
like a gateway error).  Note the absence of any sender/wallet status
re-validation between the PENDING transition and the submission. -/
def runOnce (w : World) (gw : Except String StellarService.GatewayResult)
    (maxRetries : Nat) : World × RunOutcome :=
  match w.tx with
  | none => (w, .thrown "Transaction not found")
  | some tx =>
    if tx.status = TxStatus.SUCCESS ∨ tx.status = TxStatus.FAILED then
      (w, .completed tx.status)
    else
      let w1 := updateStatus w TxStatus.PENDING TransactionService.noMeta
      match w1.senderWallet, w1.receiverWallet with
      | some _, some _ =>
        let w2 := { w1 with submitCalls := w1.submitCalls + 1 }
        match gw with
        | .ok res =>
          let w3 := updateStatus w2 TxStatus.SUCCESS
            ⟨some res.hash, some res.ledger, none⟩
          (syncBalances w3, .completed TxStatus.SUCCESS)
        | .error msg => handleFailure w2 msg maxRetries
      | _, _ => handleFailure w1 "Wallet not found for sender or receiver" maxRetries

/-- The queue substrate driver: up to attemptsLeft deliveries of the job
(BullMQ attempts = maxRetries), redelivering while the handler throws;
none means the job was abandoned with every configured attempt thrown. -/
def driveJob (w : World) (gw : Nat → Except String StellarService.GatewayResult)
    (attemptIx : Nat) (attemptsLeft : Nat) (maxRetries : Nat) :
    World × Option TxStatus :=
  match attemptsLeft with
  | 0 => (w, none)
  | n + 1 =>
    match runOnce w (gw attemptIx) maxRetries with
    | (w1, .completed st) => (w1, some st)
    | (w1, .thrown _) => driveJob w1 gw (attemptIx + 1) n maxRetries

end TransactionWorker

/-! ### WalletService — src/modules/wallet/wallet.service.ts -/

namespace WalletService

/-- Result shape of WalletService.fundWallet. -/
structure FundResult where
  success : Bool
  balance : String
  message : String
  deriving DecidableEq, Repr

/-- Amount credited by one Friendbot funding (the source constant). -/
def friendbotAmount : Int := 10000 * SCALE

/-- WalletService.fundWallet.  The ledger argument is the combined outcome
of the try block (Friendbot funding followed by the balance query): ok with
the newly reported balance, or the message of whatever the block threw.
The daily counters are recomputed from lastResetDate with
Math.floor((now - lastResetDate) / MS_PER_DAY) and reset when at least one
whole 24-hour period has elapsed — a rolling window, not a calendar-day
comparison. -/
def fundWallet (cfg : Config) (db : DB) (userId : String) (now : Int)
    (ledger : Except String Int) : Except AppError FundResult × DB :=
  match findWalletByUserId db userId with
  | none => (.error (.notFound "Wallet"), db)
  | some wallet =>
    if wallet.status = WalletStatus.FROZEN then
      (.error (.walletFrozen wallet.id), db)
    else
      let daysDiff := (now - wallet.lastResetDate).fdiv MS_PER_DAY
      let fundingCount := if daysDiff ≥ 1 then 0 else wallet.fundingCount
      let dailyFundingSum := if daysDiff ≥ 1 then 0 else wallet.dailyFundingSum
      if fundingCount ≥ cfg.rateLimitMax then
        (.error (.rateLimitExceeded ("Maximum " ++ toString cfg.rateLimitMax ++
          " fundings per day exceeded")), db)
      else if dailyFundingSum + friendbotAmount > cfg.dailyCapXlm then
        (.error (.limitExceeded ("Daily funding cap of " ++
          decimalToString cfg.dailyCapXlm ++ " XLM exceeded")), db)
      else
        match ledger with
        | .error _ => (.error (.internalServer "Failed to fund wallet"), db)
        | .ok balance =>
          let updated := { wallet with
            balance := balance
            lastFundedAt := some now
            fundingCount := fundingCount + 1
            dailyFundingSum := dailyFundingSum + friendbotAmount
            lastResetDate := if daysDiff ≥ 1 then now else wallet.lastResetDate }
          (.ok ⟨true, decimalToString balance, "Wallet funded successfully"⟩,
           { db with wallets := updateWalletRow db.wallets wallet.id updated })

/-- Result shape of WalletService.getBalance. -/
structure BalanceView where
  balance : String
  stellarBalance : String
  synced : Bool
  deriving DecidableEq, Repr

/-- WalletService.getBalance: format the cached balance and the live ledger
balance to seven decimal places, compare the two strings for the synced
flag, and return both.  No write happens on this path. -/
def getBalance (db : DB) (userId : String) (ledger : Except AppError Int) :
    Except AppError BalanceView × DB :=
  match findWalletByUserId db userId with
  | none => (.error (.notFound "Wallet"), db)
  | some wallet =>
    match ledger with
    | .error e => (.error e, db)
    | .ok raw =>
      let dbBalance := toFixed7 wallet.balance
      let stellarBalance := toFixed7 raw
      let synced := dbBalance == stellarBalance
      (.ok ⟨dbBalance, stellarBalance, synced⟩, db)

end WalletService

/-! ### HTTP controller — src/modules/transaction/transaction.controller.ts -/

namespace TransactionController

/-- Request body of POST /transactions/send. -/
structure SendBody where
  recipientHandle : String
  amount : String
  idempotencyKey : Option String
  deriving DecidableEq, Repr

/-- The zod sendPaymentSchema: handle length 3..30 and the amount regex. -/
def sendBodySchemaOk (b : SendBody) : Bool :=
  decide (3 ≤ b.recipientHandle.length) &&
    decide (b.recipientHandle.length ≤ 30) && amountRegexOk b.amount

/-- Success payload of the controller sendPayment handler. -/
structure SendPaymentData where
  transactionId : String
  status : TxStatus
  amount : String
  recipientHandle : String
  createdAt : Int
  message : String
  deriving DecidableEq, Repr

/-- The controller sendPayment handler: schema validation, caller lookup by
keycloak id, delegation to the service, and the 201 reply whose status
field is the status of whatever transaction the service returned. -/
def sendPayment (cfg : Config) (db : DB) (now : Int) (keycloakId : String)
    (body : SendBody) : Except AppError (Nat × SendPaymentData) × DB :=
  if !sendBodySchemaOk body then
    (.error (.validation "Invalid payment data"), db)
  else
    match findUserByKeycloakId db keycloakId with
    | none => (.error (.notFound "User"), db)
    | some user =>
      match TransactionService.sendPayment cfg db now
        ⟨user.id, body.recipientHandle, body.amount, body.idempotencyKey⟩ with
      | (.ok t, db1) =>
        (.ok (201, ⟨t.id, t.status, decimalToString t.amount,
          body.recipientHandle, t.createdAt,
          "Payment initiated. Check status for confirmation."⟩), db1)
      | (.error e, db1) => (.error e, db1)

end TransactionController

/-! ### Wallet crypto — src/modules/wallet/wallet.crypto.ts

AES-256-GCM itself is an external primitive (node:crypto); it is embedded
as an abstract authenticated cipher with the properties the library
guarantees: decryption inverts encryption, the ciphertext has the length of
the plaintext (GCM is a stream mode), and the authentication tag has 16
bytes.  Secrets are byte lists (the UTF-8 bytes of the secret string);
hex encoding is modelled exactly. -/

namespace WalletCrypto

abbrev Byte := Fin 256

def hexDigitChar (n : Nat) : Char :=
  if n < 10 then Char.ofNat (48 + n) else Char.ofNat (87 + n)

def hexOfByte (b : Byte) : List Char :=
  [hexDigitChar (b.val / 16), hexDigitChar (b.val % 16)]

def hexEncode (bs : List Byte) : List Char :=
  (bs.map hexOfByte).flatten

def hexVal (c : Char) : Option Nat :=
  if 48 ≤ c.toNat ∧ c.toNat ≤ 57 then some (c.toNat - 48)
  else if 97 ≤ c.toNat ∧ c.toNat ≤ 102 then some (c.toNat - 87)
  else none

def hexDecode : List Char → Option (List Byte)
  | [] => some []
  | c1 :: c2 :: rest =>
    match hexVal c1, hexVal c2, hexDecode rest with
    | some h, some l, some bs =>
      if hhl : h * 16 + l < 256 then some (⟨h * 16 + l, hhl⟩ :: bs) else none
    | _, _, _ => none
  | _ :: [] => none

/-- Abstract AES-256-GCM: what node:crypto createCipheriv/createDecipheriv
provide for a fixed algorithm, as used with a 32-byte key and 16-byte IV. -/
structure GcmCipher where
  enc : List Byte → List Byte → List Byte → List Byte × List Byte
  dec : List Byte → List Byte → List Byte → List Byte → Option (List Byte)
  dec_enc : ∀ k iv p, dec k iv (enc k iv p).1 (enc k iv p).2 = some p
  enc_len : ∀ k iv p, (enc k iv p).1.length = p.length
  tag_len : ∀ k iv p, (enc k iv p).2.length = 16

/-- A concrete instance of the abstract cipher (identity transform with a
constant tag), used to evaluate the wallet-crypto plumbing on closed
inputs. -/
def plainCipher : GcmCipher where
  enc := fun _ _ p => (p, List.replicate 16 (0 : Byte))
  dec := fun _ _ c t => if t = List.replicate 16 (0 : Byte) then some c else none
  dec_enc := by intro k iv p; simp
  enc_len := by intro k iv p; rfl
  tag_len := by intro k iv p; simp

/-- EncryptedData returned by encrypt: hex ciphertext, hex IV, hex tag. -/
structure EncryptedData where
  encrypted : List Char
  iv : List Char
  authTag : List Char
  deriving DecidableEq, Repr

/-- encrypt: cipher the plaintext under the server key and the fresh IV,
hex-encode ciphertext, IV and tag. -/
def encrypt (c : GcmCipher) (key iv plaintext : List Byte) : EncryptedData :=
  let r := c.enc key iv plaintext
  ⟨hexEncode r.1, hexEncode iv, hexEncode r.2⟩

/-- decrypt: hex-decode the three components and run authenticated
decryption; tag mismatch or malformed hex is a thrown error (none). -/
def decrypt (c : GcmCipher) (key : List Byte) (ed : EncryptedData) :
    Option (List Byte) :=
  match hexDecode ed.iv, hexDecode ed.encrypted, hexDecode ed.authTag with
  | some iv, some cipherBytes, some tagBytes => c.dec key iv cipherBytes tagBytes
  | _, _, _ => none

/-- encryptSecretKey: encrypt, then store ciphertext and tag in one column
joined by a colon. -/
def encryptSecretKey (c : GcmCipher) (key iv secretKey : List Byte) :
    List Char × List Char :=
  let r := encrypt c key iv secretKey
  (r.encrypted ++ ':' :: r.authTag, r.iv)

/-- decryptSecretKey: split the stored column on the colon, reject when the
destructured ciphertext or tag is falsy (absent or empty), then decrypt. -/
def decryptSecretKey (c : GcmCipher) (key : List Byte)
    (encryptedSecret iv : List Char) : Except String (List Byte) :=
  let parts := splitOnChar ':' encryptedSecret
  let encrypted := parts.getD 0 []
  let authTag := parts.getD 1 []
  if encrypted.isEmpty || authTag.isEmpty then
    .error "Invalid encrypted secret key format"
  else
    match decrypt c key ⟨encrypted, iv, authTag⟩ with
    | some p => .ok p
    | none => .error "Unsupported state or unable to authenticate data"

end WalletCrypto

/-! ### Concrete fixtures used to evaluate the embedded operations -/

def uAlice : User := ⟨"u1", "kc1", "alice", UserStatus.ACTIVE⟩

def uBob : User := ⟨"u2", "kc2", "bob", UserStatus.ACTIVE⟩

def wAlice : Wallet :=
  ⟨"w1", "u1", "GPUB1", "ct1", "iv1", 50 * SCALE, WalletStatus.ACTIVE, none, 0, 0, 0⟩

def wBob : Wallet :=
  ⟨"w2", "u2", "GPUB2", "ct2", "iv2", 0, WalletStatus.ACTIVE, none, 0, 0, 0⟩

/-- A freshly created 10 XLM transaction from u1 to u2. -/
def txCreated : Txn :=
  ⟨"tx1", "u1", "u2", 10 * SCALE, TxType.P2P_SEND, TxStatus.CREATED,
    none, none, none, none, 0, none, 0, none⟩

/-- An already settled transaction (terminal SUCCESS). -/
def txSettled : Txn :=
  { txCreated with
      status := TxStatus.SUCCESS
      stellarTxHash := some "abc"
      completedAt := some 500 }

/-- Worker view of txCreated with a BLOCKED sender: the admin blocked the
sender after intake and before the worker dequeued the job. -/
def blockedWorld : TransactionWorker.World :=
  ⟨some txCreated, { uAlice with status := UserStatus.BLOCKED }, some wAlice,
    uBob, some wBob, 40 * SCALE, 10 * SCALE, 0, 1000⟩

/-- Worker view of txCreated with everything healthy. -/
def healthyWorld : TransactionWorker.World :=
  ⟨some txCreated, uAlice, some wAlice, uBob, some wBob, 40 * SCALE,
    10 * SCALE, 0, 1000⟩

/-- A gateway that fails every attempt. -/
def gwAlwaysFail : Nat → Except String StellarService.GatewayResult :=
  fun _ => .error "Request timed out"

/-- A gateway that fails the first two attempts and succeeds afterwards. -/
def gwThirdTimeLucky : Nat → Except String StellarService.GatewayResult :=
  fun i => if i ≤ 1 then .error "Request timed out" else .ok ⟨"deadbeef", 12345⟩

/-- Intake database: two active users with wallets, no transactions. -/
def dbBase : DB := ⟨[uAlice, uBob], [wAlice, wBob], [], [], 0⟩

def sendP1 : TransactionService.SendParams := ⟨"u1", "bob", "7.5", some "key1"⟩

/-- Replay of key1 with a different amount and an unresolvable recipient. -/
def sendP2 : TransactionService.SendParams :=
  ⟨"u1", "nosuchhandle", "9", some "key1"⟩

/-- Insufficient-balance scenario parameters: balance is 50, send 100. -/
def sendPBig : TransactionService.SendParams := ⟨"u1", "bob", "100", none⟩

/-- Database holding a settled transaction stored under idempotency key
"dup". -/
def dbReplay : DB :=
  ⟨[uAlice, uBob], [wAlice, wBob],
    [{ txSettled with id := "tx9", idempotencyKey := some "dup" }], [], 10⟩

def replayBody : TransactionController.SendBody := ⟨"bob", "25", some "dup"⟩

def freshBody : TransactionController.SendBody := ⟨"bob", "7.5", some "key1"⟩

/-- Funding-reset fixture: the wallet hit the funding cap (count 3) with
lastResetDate at 10:00 of model day 0; now is 11:00 of model day 1, i.e.
25 hours later but only one calendar day in the past. -/
def wCarol : Wallet :=
  ⟨"w7", "u7", "GPUB7", "ct7", "iv7", 0, WalletStatus.ACTIVE, none, 3, 0, 36000000⟩

def uCarol : User := ⟨"u7", "kc7", "carol", UserStatus.ACTIVE⟩

def dbCarol : DB := ⟨[uCarol], [wCarol], [], [], 0⟩

/-- Worker view of a job redelivered for an already settled transaction. -/
def settledWorld : TransactionWorker.World :=
  { healthyWorld with tx := some txSettled }

/-- The transaction sendPayment creates from dbBase for sendP1. -/
def t1Fix : Txn :=
  ⟨"tx0", "u1", "u2", 75000000, TxType.P2P_SEND, TxStatus.CREATED,
    none, none, some "key1", none, 0, some ⟨"alice", "bob"⟩, 1000, none⟩

/-- dbBase after the first sendP1 call: one row, one enqueued job. -/
def db1Fix : DB := ⟨[uAlice, uBob], [wAlice, wBob], [t1Fix], ["tx0"], 1⟩

/-- Controller payload returned for the replayed key "dup". -/
def replayRespData : TransactionController.SendPaymentData :=
  ⟨"tx9", TxStatus.SUCCESS, "10", "bob", 0,
    "Payment initiated. Check status for confirmation."⟩

/-- Controller payload returned for the fresh key "key1". -/
def freshRespData : TransactionController.SendPaymentData :=
  ⟨"tx0", TxStatus.CREATED, "7.5", "bob", 1000,
    "Payment initiated. Check status for confirmation."⟩

/-- Rolling-window formulation of the funding-counter reset that the source
performs: the count used by the checks, zero when at least 24 hours have
elapsed since lastResetDate. -/
def adjustedCount (w : Wallet) (now : Int) : Nat :=
  if MS_PER_DAY ≤ now - w.lastResetDate then 0 else w.fundingCount

/-- Rolling-window formulation of the daily funding sum used by the cap
check. -/
def adjustedSum (w : Wallet) (now : Int) : Int :=
  if MS_PER_DAY ≤ now - w.lastResetDate then 0 else w.dailyFundingSum

/-- The wallet row as fundWallet persists it on success: balance from the
ledger, counters advanced from their rolling-window-adjusted values,
lastResetDate refreshed when the window elapsed. -/
def fundedWallet (w : Wallet) (now b : Int) : Wallet :=
  { w with
      balance := b
      lastFundedAt := some now
      fundingCount := adjustedCount w now + 1
      dailyFundingSum := adjustedSum w now + WalletService.friendbotAmount
      lastResetDate := if MS_PER_DAY ≤ now - w.lastResetDate then now
        else w.lastResetDate }

/-! ## Theorems -/

/-- Floor division by a day is at least one exactly when a full day has
elapsed. -/
theorem fdiv_day_ge_one (a : Int) : 1 ≤ a.fdiv MS_PER_DAY ↔ MS_PER_DAY ≤ a := by
  rw [Int.fdiv_eq_ediv a (by decide : (0 : Int) ≤ MS_PER_DAY)]
  rw [Int.le_ediv_iff_mul_le (by decide : (0 : Int) < MS_PER_DAY)]
  constructor
  · intro h; simpa using h
  · intro h; simpa using h

/-- Metadata merging never touches the status field. -/
theorem mergeHash_status (t : Txn) (h : Option String) :
    (TransactionService.mergeHash t h).status = t.status := by
  cases h with
  | none => rfl
  | some s =>
    simp only [TransactionService.mergeHash]
    split <;> rfl

/-- Metadata merging never touches the status field. -/
theorem mergeLedger_status (t : Txn) (l : Option Nat) :
    (TransactionService.mergeLedger t l).status = t.status := by
  cases l with
  | none => rfl
  | some n =>
    simp only [TransactionService.mergeLedger]
    split <;> rfl

/-- Metadata merging never touches the status field. -/
theorem mergeReason_status (t : Txn) (r : Option String) :
    (TransactionService.mergeReason t r).status = t.status := by
  cases r with
  | none => rfl
  | some s =>
    simp only [TransactionService.mergeReason]
    split <;> rfl

/-- The catch path never touches the gateway-call counter. -/
theorem handleFailure_submitCalls (w : TransactionWorker.World) (msg : String)
    (mr : Nat) :
    (TransactionWorker.handleFailure w msg mr).1.submitCalls = w.submitCalls := by
  simp only [TransactionWorker.handleFailure]
  split
  · split
    · rfl
    · rfl
  · rfl

/-- C1 (counterexample).  A CREATED transaction whose sender was BLOCKED
after intake is still submitted by the worker: the gateway is called once
and the transaction ends SUCCESS, where the claim requires FAILED with no
gateway call. -/
theorem c1_blocked_sender_counterexample :
    blockedWorld.sender.status = UserStatus.BLOCKED ∧
    (blockedWorld.tx.map Txn.status) = some TxStatus.CREATED ∧
    (TransactionWorker.runOnce blockedWorld (.ok ⟨"abc123", 77⟩) 3).1.submitCalls = 1 ∧
    ((TransactionWorker.runOnce blockedWorld (.ok ⟨"abc123", 77⟩) 3).1.tx.map Txn.status) =
      some TxStatus.SUCCESS := by
  refine ⟨rfl, rfl, ?_, ?_⟩ <;> decide

/-- C1 (amended).  The worker performs no re-validation of sender or wallet
status before submission: whenever the job's transaction exists in a
non-terminal state and both wallets exist, processTransaction reaches the
gateway and calls submitPayment exactly once in that delivery, regardless
of the sender account's status and of the wallets' statuses. -/
theorem c1_worker_skips_revalidation (w : TransactionWorker.World)
    (gw : Except String StellarService.GatewayResult) (mr : Nat) (tx : Txn)
    (htx : w.tx = some tx) (hs : tx.status ≠ TxStatus.SUCCESS)
    (hf : tx.status ≠ TxStatus.FAILED)
    (hsw : w.senderWallet.isSome) (hrw : w.receiverWallet.isSome) :
    (TransactionWorker.runOnce w gw mr).1.submitCalls = w.submitCalls + 1 := by
  obtain ⟨sw, hsweq⟩ := Option.isSome_iff_exists.1 hsw
  obtain ⟨rw2, hrweq⟩ := Option.isSome_iff_exists.1 hrw
  cases gw with
  | ok res =>
    simp [TransactionWorker.runOnce, htx, hs, hf, TransactionWorker.updateStatus,
      TransactionWorker.syncBalances, hsweq, hrweq]
  | error msg =>
    simp [TransactionWorker.runOnce, htx, hs, hf, TransactionWorker.updateStatus,
      hsweq, hrweq, handleFailure_submitCalls]

/-- C1 (witness): the amended theorem applied to the blocked-sender world. -/
theorem c1_worker_skips_revalidation_witness :
    (TransactionWorker.runOnce blockedWorld (.ok ⟨"abc123", 77⟩) 3).1.submitCalls =
      blockedWorld.submitCalls + 1 :=
  c1_worker_skips_revalidation blockedWorld (.ok ⟨"abc123", 77⟩) 3 txCreated
    rfl (by decide) (by decide) (by decide) (by decide)

/-- C2 (counterexample).  The status update the worker uses is not guarded:
moving an already-SUCCESS transaction to PENDING does change its status,
where the claim requires the terminal status to be preserved. -/
theorem c2_terminal_to_pending_counterexample :
    txSettled.status = TxStatus.SUCCESS ∧
    (TransactionService.updateTransactionStatus txSettled TxStatus.PENDING
      TransactionService.noMeta 0).status = TxStatus.PENDING := by
  decide

/-- C2 (amended).  updateTransactionStatus is an unconditional overwrite:
there is no fromAllowedStates argument and no InvalidTransitionError, and
the resulting status is always the requested one.  Protection against
re-processing a terminal transaction lives solely in the worker's step-2
idempotency guard, which returns with no side effects when the loaded
status is already SUCCESS or FAILED. -/
theorem c2_status_overwrite_unconditional :
    (∀ (tx : Txn) (st : TxStatus) (md : TransactionService.UpdateMeta) (now : Int),
      (TransactionService.updateTransactionStatus tx st md now).status = st) ∧
    (∀ (w : TransactionWorker.World) (gw : Except String StellarService.GatewayResult)
      (mr : Nat) (tx : Txn), w.tx = some tx →
      (tx.status = TxStatus.SUCCESS ∨ tx.status = TxStatus.FAILED) →
      TransactionWorker.runOnce w gw mr = (w, .completed tx.status)) := by
  constructor
  · intro tx st md now
    simp only [TransactionService.updateTransactionStatus]
    split <;>
      simp [mergeReason_status, mergeLedger_status, mergeHash_status]
  · intro w gw mr tx htx hterm
    simp [TransactionWorker.runOnce, htx, hterm]

/-- C2 (witness): the amended theorem at a concrete overwrite and at a
redelivered job for a settled transaction. -/
theorem c2_status_overwrite_witness :
    (TransactionService.updateTransactionStatus txSettled TxStatus.FAILED
      TransactionService.noMeta 7).status = TxStatus.FAILED ∧
    TransactionWorker.runOnce settledWorld (.error "boom") 3 =
      (settledWorld, .completed TxStatus.SUCCESS) :=
  ⟨c2_status_overwrite_unconditional.1 txSettled TxStatus.FAILED
      TransactionService.noMeta 7,
   c2_status_overwrite_unconditional.2 settledWorld (.error "boom") 3 txSettled
      rfl (Or.inl rfl)⟩

/-- C3 (code bug evidence).  With maxRetries = 3 and BullMQ configured for
three attempts, a gateway that fails every attempt leaves the transaction
FAILED with retryCount 2 after only two gateway calls — the catch block
compares the incremented counter against maxRetries - 1, so the configured
third attempt is unreachable; consequently a gateway that would succeed on
the third attempt still ends FAILED with two calls, never SUCCESS with
retryCount 2 as the claim states. -/
theorem c3_two_attempt_cutoff :
    (TransactionWorker.driveJob healthyWorld gwAlwaysFail 0 3 3).2 =
      some TxStatus.FAILED ∧
    ((TransactionWorker.driveJob healthyWorld gwAlwaysFail 0 3 3).1.tx.map
      Txn.retryCount) = some 2 ∧
    (TransactionWorker.driveJob healthyWorld gwAlwaysFail 0 3 3).1.submitCalls = 2 ∧
    ((TransactionWorker.driveJob healthyWorld gwAlwaysFail 0 3 3).1.tx.map
      Txn.failureReason) =
      some (some "Max retries exceeded. Last error: Request timed out") ∧
    (TransactionWorker.driveJob healthyWorld gwThirdTimeLucky 0 3 3).2 =
      some TxStatus.FAILED ∧
    (TransactionWorker.driveJob healthyWorld gwThirdTimeLucky 0 3 3).1.submitCalls = 2 := by
  refine ⟨?_, ?_, ?_, ?_, ?_, ?_⟩ <;> decide

set_option maxHeartbeats 2000000 in
/-- Intake errors are pure: sendPayment either returns the input database
unchanged or succeeds — every thrown error happens before the transaction
row is created and before the job is enqueued. -/
theorem sendPayment_error_pure (cfg : Config) (db : DB) (now : Int)
    (p : TransactionService.SendParams) (r : Except AppError Txn) (db2 : DB)
    (h : TransactionService.sendPayment cfg db now p = (r, db2)) :
    db2 = db ∨ ∃ t, r = .ok t := by
  simp only [TransactionService.sendPayment] at h
  repeat' split at h
  all_goals (cases h; first | (left; rfl) | (right; exact ⟨_, rfl⟩))

set_option maxHeartbeats 2000000 in
/-- A successful sendPayment returns either a freshly created transaction
(status CREATED) or the transaction already stored under the supplied
idempotency key. -/
theorem sendPayment_ok_cases (cfg : Config) (db : DB) (now : Int)
    (p : TransactionService.SendParams) (t : Txn) (db2 : DB)
    (h : TransactionService.sendPayment cfg db now p = (.ok t, db2)) :
    t.status = TxStatus.CREATED ∨
    ∃ k, p.idempotencyKey = some k ∧ findTxnByIdemKey db k = some t := by
  simp only [TransactionService.sendPayment] at h
  repeat' split at h
  all_goals simp at h
  · rename_i existing heq
    obtain ⟨ht, hdb⟩ := h
    rcases hpk : p.idempotencyKey with _ | k
    · rw [hpk] at heq
      simp at heq
    · rw [hpk] at heq
      exact Or.inr ⟨k, rfl, ht ▸ heq⟩
  · obtain ⟨ht, hdb⟩ := h
    exact Or.inl (by rw [← ht])

set_option maxHeartbeats 2000000 in
/-- A successful sendPayment carrying idempotency key k leaves the returned
transaction stored under k; it appended exactly that row and its job when
no row held k before, and it changed nothing when a row already held k. -/
theorem sendPayment_ok_key_facts (cfg : Config) (db : DB) (now : Int)
    (p : TransactionService.SendParams) (k : String) (t : Txn) (db2 : DB)
    (hk : p.idempotencyKey = some k)
    (h : TransactionService.sendPayment cfg db now p = (.ok t, db2)) :
    findTxnByIdemKey db2 k = some t ∧
    (findTxnByIdemKey db k = none →
      db2.transactions = db.transactions ++ [t] ∧ db2.jobs = db.jobs ++ [t.id]) ∧
    (∀ t0, findTxnByIdemKey db k = some t0 → db2 = db ∧ t = t0) := by
  simp only [TransactionService.sendPayment, hk] at h
  repeat' split at h
  all_goals simp at h
  · rename_i existing heq
    obtain ⟨ht, hdb⟩ := h
    subst hdb
    subst ht
    refine ⟨heq, ?_, ?_⟩
    · intro hnone
      rw [heq] at hnone
      cases hnone
    · intro t0 h0
      rw [heq] at h0
      exact ⟨rfl, Option.some.inj h0⟩
  · have heqn : findTxnByIdemKey db k = none := by assumption
    obtain ⟨ht, hdb⟩ := h
    subst hdb
    subst ht
    refine ⟨?_, fun _ => ⟨rfl, rfl⟩, ?_⟩
    · unfold findTxnByIdemKey at heqn ⊢
      simp only [List.find?_append, heqn, Option.none_or]
      simp [hk]
    · intro t0 h0
      rw [heqn] at h0
      cases h0

/-- C4 (confirmed).  Replaying sendPayment with the idempotency key of an
earlier successful call — with the same or a different (valid) amount, and
regardless of the recipient handle or sender of the replay — returns the
same transaction and the same database: no second row, no second job.  The
idempotency lookup short-circuits before sender/recipient resolution, and
across the pair of calls exactly one row and one job were created when the
key was fresh, none when it already existed. -/
theorem c4_idempotent_intake (cfg : Config) (db db1 : DB) (now now2 : Int)
    (p p2 : TransactionService.SendParams) (k : String) (t : Txn)
    (hk : p.idempotencyKey = some k) (hk2 : p2.idempotencyKey = some k)
    (ha : (TransactionService.validateAmount cfg p2.amount).isSome)
    (h1 : TransactionService.sendPayment cfg db now p = (.ok t, db1)) :
    TransactionService.sendPayment cfg db1 now2 p2 = (.ok t, db1) ∧
    (findTxnByIdemKey db k = none →
      db1.transactions.length = db.transactions.length + 1 ∧
      db1.jobs.length = db.jobs.length + 1) ∧
    (∀ t0, findTxnByIdemKey db k = some t0 → db1 = db ∧ t = t0) := by
  obtain ⟨hfind, hlen, hsame⟩ :=
    sendPayment_ok_key_facts cfg db now p k t db1 hk h1
  obtain ⟨a2, ha2⟩ := Option.isSome_iff_exists.1 ha
  refine ⟨?_, ?_, hsame⟩
  · simp only [TransactionService.sendPayment, ha2, hk2, hfind]
  · intro hnone
    obtain ⟨htr, hjb⟩ := hlen hnone
    rw [htr, hjb]
    simp

/-- C4 (witness): the theorem at the fixture pair — first call creates tx0
under key1, the replay with a different amount and an unresolvable
recipient handle returns tx0 against the unchanged database. -/
theorem c4_idempotent_intake_witness :
    TransactionService.sendPayment defaultConfig db1Fix 2000 sendP2 =
      (.ok t1Fix, db1Fix) ∧
    (findTxnByIdemKey dbBase "key1" = none →
      db1Fix.transactions.length = dbBase.transactions.length + 1 ∧
      db1Fix.jobs.length = dbBase.jobs.length + 1) ∧
    (∀ t0, findTxnByIdemKey dbBase "key1" = some t0 → db1Fix = dbBase ∧ t1Fix = t0) :=
  c4_idempotent_intake defaultConfig dbBase db1Fix 1000 2000 sendP1 sendP2
    "key1" t1Fix rfl rfl (by decide) rfl

/-- C5 (counterexample).  A replayed request whose idempotency key belongs
to an already settled transaction gets a successful 201 response whose
status field is SUCCESS — a terminal status returned synchronously, which
the claim rules out. -/
theorem c5_replay_terminal_counterexample :
    (TransactionController.sendPayment defaultConfig dbReplay 0 "kc1" replayBody).1 =
      .ok (201, replayRespData) ∧
    replayRespData.status = TxStatus.SUCCESS :=
  ⟨rfl, rfl⟩

/-- C5 (amended).  Every successful response of the send handler carries
HTTP status 201, and when the request's idempotency key (if any) matches no
stored transaction the body status is CREATED; a replayed key instead
echoes the stored transaction's current status, which may be terminal. -/
theorem c5_send_response_statuses (cfg : Config) (db : DB) (now : Int)
    (kc : String) (body : TransactionController.SendBody)
    (resp : Nat × TransactionController.SendPaymentData) (db2 : DB)
    (h : TransactionController.sendPayment cfg db now kc body = (.ok resp, db2)) :
    resp.1 = 201 ∧
    ((∀ k, body.idempotencyKey = some k → findTxnByIdemKey db k = none) →
      resp.2.status = TxStatus.CREATED) := by
  simp only [TransactionController.sendPayment] at h
  split at h
  · simp at h
  · split at h
    · simp at h
    · rename_i user huser
      split at h
      · rename_i t db1 hsvc
        simp only [Prod.mk.injEq, Except.ok.injEq] at h
        obtain ⟨hresp, hdb⟩ := h
        subst hresp
        refine ⟨rfl, ?_⟩
        intro hfresh
        rcases sendPayment_ok_cases cfg db now _ t db1 hsvc with hc | ⟨k, hkk, hkfind⟩
        · exact hc
        · rw [hfresh k hkk] at hkfind
          cases hkfind
      · simp at h

/-- C5 (witness): the amended theorem at a fresh-key request. -/
theorem c5_send_response_witness :
    ((201 : Nat), freshRespData).1 = 201 ∧
    ((∀ k, freshBody.idempotencyKey = some k → findTxnByIdemKey dbBase k = none) →
      ((201 : Nat), freshRespData).2.status = TxStatus.CREATED) :=
  c5_send_response_statuses defaultConfig dbBase 1000 "kc1" freshBody
    (201, freshRespData) db1Fix rfl

/-- C6 (confirmed).  Whenever sendPayment raises an intake-time error the
database is returned unchanged — no transaction row exists and no job is
enqueued — and in the balance-50/amount-100 scenario the error is
InsufficientBalanceError carrying required "100" and available "50". -/
theorem c6_intake_errors_pure :
    (∀ (cfg : Config) (db : DB) (now : Int) (p : TransactionService.SendParams)
      (e : AppError),
      (TransactionService.sendPayment cfg db now p).1 = .error e →
      (TransactionService.sendPayment cfg db now p).2 = db) ∧
    TransactionService.sendPayment defaultConfig dbBase 1000 sendPBig =
      (.error (.insufficientBalance "100" "50"), dbBase) := by
  constructor
  · intro cfg db now p e he
    rcases sendPayment_error_pure cfg db now p
        (TransactionService.sendPayment cfg db now p).1
        (TransactionService.sendPayment cfg db now p).2 rfl with hdb | ⟨t, ht⟩
    · exact hdb
    · rw [ht] at he
      cases he
  · rfl

/-- C6 (witness): the insufficient-balance scenario leaves the database
unchanged. -/
theorem c6_intake_errors_witness :
    (TransactionService.sendPayment defaultConfig dbBase 1000 sendPBig).2 = dbBase :=
  c6_intake_errors_pure.1 defaultConfig dbBase 1000 sendPBig
    (.insufficientBalance "100" "50") rfl

/-- C7 (counterexample).  The wallet is at the funding-count cap and its
lastResetDate lies exactly one calendar day in the past — not more than
one, so under the claim the counters are not reset and funding must fail
with RateLimitExceededError.  The code instead resets after 25 elapsed
hours (a rolling 24-hour window) and the funding succeeds. -/
theorem c7_rolling_reset_counterexample :
    wCarol.fundingCount = defaultConfig.rateLimitMax ∧
    specCalendarDay 126000000 - specCalendarDay wCarol.lastResetDate = 1 ∧
    (WalletService.fundWallet defaultConfig dbCarol "u7" 126000000
      (.ok (10000 * SCALE))).1 =
      .ok ⟨true, "10000", "Wallet funded successfully"⟩ := by
  refine ⟨rfl, by decide, by rfl⟩

/-- C7 (amended).  fundWallet fails with WalletFrozenError when the wallet
is FROZEN, with RateLimitExceededError when the funding count has reached
the per-day maximum (default 3), and with LimitExceededError when the
daily funding sum would exceed the daily cap (default 10,000); the funding
counters are treated as fundingCount = 0 and dailyFundingSum = 0 — and the
stored lastResetDate is refreshed — when at least 24 hours have elapsed
since lastResetDate (a rolling window, not a calendar-day comparison),
before the new funding is applied. -/
theorem c7_funding_guards (db : DB) (uid : String) (now : Int)
    (ledger : Except String Int) (w : Wallet)
    (hw : findWalletByUserId db uid = some w) :
    (w.status = WalletStatus.FROZEN →
      WalletService.fundWallet defaultConfig db uid now ledger =
        (.error (.walletFrozen w.id), db)) ∧
    (w.status ≠ WalletStatus.FROZEN → 3 ≤ adjustedCount w now →
      WalletService.fundWallet defaultConfig db uid now ledger =
        (.error (.rateLimitExceeded "Maximum 3 fundings per day exceeded"), db)) ∧
    (w.status ≠ WalletStatus.FROZEN → adjustedCount w now < 3 →
      defaultConfig.dailyCapXlm < adjustedSum w now + WalletService.friendbotAmount →
      WalletService.fundWallet defaultConfig db uid now ledger =
        (.error (.limitExceeded "Daily funding cap of 10000 XLM exceeded"), db)) ∧
    (∀ b, w.status ≠ WalletStatus.FROZEN → adjustedCount w now < 3 →
      adjustedSum w now + WalletService.friendbotAmount ≤ defaultConfig.dailyCapXlm →
      ledger = .ok b →
      WalletService.fundWallet defaultConfig db uid now ledger =
        (.ok ⟨true, decimalToString b, "Wallet funded successfully"⟩,
         { db with wallets := updateWalletRow db.wallets w.id (fundedWallet w now b) })) := by
  refine ⟨?_, ?_, ?_, ?_⟩
  · intro hfz
    simp [WalletService.fundWallet, hw, hfz]
  · intro hfz hc
    have hc2 : defaultConfig.rateLimitMax ≤
        (if MS_PER_DAY ≤ now - w.lastResetDate then 0 else w.fundingCount) := by
      simpa [adjustedCount, defaultConfig] using hc
    simp only [WalletService.fundWallet, hw, ge_iff_le, fdiv_day_ge_one]
    rw [if_neg hfz, if_pos hc2]
    rfl
  · intro hfz hcLt hcap
    have hc2 : ¬ defaultConfig.rateLimitMax ≤
        (if MS_PER_DAY ≤ now - w.lastResetDate then 0 else w.fundingCount) := by
      simp only [adjustedCount, defaultConfig] at hcLt ⊢
      omega
    have hcap2 : defaultConfig.dailyCapXlm <
        (if MS_PER_DAY ≤ now - w.lastResetDate then 0 else w.dailyFundingSum) +
          WalletService.friendbotAmount := by
      simpa [adjustedSum, defaultConfig] using hcap
    simp only [WalletService.fundWallet, hw, ge_iff_le, gt_iff_lt, fdiv_day_ge_one]
    rw [if_neg hfz, if_neg hc2, if_pos hcap2]
    rfl
  · intro b hfz hcLt hcapLe hlb
    have hc2 : ¬ defaultConfig.rateLimitMax ≤
        (if MS_PER_DAY ≤ now - w.lastResetDate then 0 else w.fundingCount) := by
      simp only [adjustedCount, defaultConfig] at hcLt ⊢
      omega
    have hcap2 : ¬ defaultConfig.dailyCapXlm <
        (if MS_PER_DAY ≤ now - w.lastResetDate then 0 else w.dailyFundingSum) +
          WalletService.friendbotAmount := by
      simpa [adjustedSum, defaultConfig, not_lt] using hcapLe
    subst hlb
    simp only [WalletService.fundWallet, hw, ge_iff_le, gt_iff_lt, fdiv_day_ge_one]
    rw [if_neg hfz, if_neg hc2, if_neg hcap2]
    simp [fundedWallet, adjustedCount, adjustedSum]

/-- C7 (witness): the amended theorem's success case at the rolling-window
fixture. -/
theorem c7_funding_guards_witness :
    WalletService.fundWallet defaultConfig dbCarol "u7" 126000000
        (.ok (10000 * SCALE)) =
      (.ok ⟨true, decimalToString (10000 * SCALE), "Wallet funded successfully"⟩,
       { dbCarol with wallets := updateWalletRow dbCarol.wallets wCarol.id (fundedWallet wCarol 126000000 (10000 * SCALE)) }) :=
  (c7_funding_guards dbCarol "u7" 126000000 (.ok (10000 * SCALE)) wCarol rfl).2.2.2
    (10000 * SCALE) (by decide) (by decide) (by decide) rfl

/-- C8 (confirmed).  The gateway getBalance returns "0" when the account
load fails with HTTP 404, never raises on a loaded account, and raises the
ledger error only for non-404 load failures. -/
theorem c8_get_balance_404 :
    StellarService.getBalance (.failure (some 404)) = .ok "0" ∧
    (∀ bs, ∃ s, StellarService.getBalance (.account bs) = .ok s) ∧
    (∀ (st : Option Nat) (e : AppError),
      StellarService.getBalance (.failure st) = .error e →
      st ≠ some 404 ∧ e = .stellar "Failed to get account balance") := by
  refine ⟨rfl, ?_, ?_⟩
  · intro bs
    unfold StellarService.getBalance
    cases h : bs.find? (fun b => decide (b.asset_type = "native")) with
    | none => exact ⟨"0", by simp [h]⟩
    | some nb => exact ⟨if nb.balance = "" then "0" else nb.balance, by simp [h]⟩
  · intro st e h
    simp only [StellarService.getBalance] at h
    by_cases h404 : st = some 404
    · rw [if_pos h404] at h
      cases h
    · rw [if_neg h404] at h
      cases h
      exact ⟨h404, rfl⟩

/-- C8 (witness): a 500-status load failure raises the ledger error. -/
theorem c8_get_balance_witness :
    (some 500 : Option Nat) ≠ some 404 ∧
    AppError.stellar "Failed to get account balance" =
      .stellar "Failed to get account balance" :=
  c8_get_balance_404.2.2 (some 500) (.stellar "Failed to get account balance") rfl

/-- C10 (confirmed).  WalletService.getBalance formats the cached and the
live balance to seven decimal places, reports synced exactly when the two
formatted strings are equal, returns both, and leaves the database — in
particular the cached balance — unchanged. -/
theorem c10_balance_synced_flag (db : DB) (uid : String) (raw : Int) (w : Wallet)
    (hw : findWalletByUserId db uid = some w) :
    WalletService.getBalance db uid (.ok raw) =
      (.ok ⟨toFixed7 w.balance, toFixed7 raw, toFixed7 w.balance == toFixed7 raw⟩, db) ∧
    (((toFixed7 w.balance == toFixed7 raw) = true) ↔
      toFixed7 w.balance = toFixed7 raw) := by
  constructor
  · unfold WalletService.getBalance
    rw [hw]
  · exact beq_iff_eq

/-- C10 (witness): the theorem at a wallet cached at 50 with the ledger
reporting 40. -/
theorem c10_balance_synced_witness :
    WalletService.getBalance dbBase "u1" (.ok (40 * SCALE)) =
      (.ok ⟨toFixed7 wAlice.balance, toFixed7 (40 * SCALE),
        toFixed7 wAlice.balance == toFixed7 (40 * SCALE)⟩, dbBase) ∧
    (((toFixed7 wAlice.balance == toFixed7 (40 * SCALE)) = true) ↔
      toFixed7 wAlice.balance = toFixed7 (40 * SCALE)) :=
  c10_balance_synced_flag dbBase "u1" (40 * SCALE) wAlice rfl

theorem hexDigitChar_lt16_ne_colon : ∀ n, n < 16 → WalletCrypto.hexDigitChar n ≠ ':' := by
  decide

theorem hexVal_hexDigitChar : ∀ n, n < 16 →
    WalletCrypto.hexVal (WalletCrypto.hexDigitChar n) = some n := by
  decide

theorem byte_div16_lt (b : WalletCrypto.Byte) : b.val / 16 < 16 := by
  omega

theorem hexEncode_no_colon (bs : List WalletCrypto.Byte) :
    ':' ∉ WalletCrypto.hexEncode bs := by
  induction bs with
  | nil => simp [WalletCrypto.hexEncode]
  | cons b rest ih =>
    intro hmem
    simp only [WalletCrypto.hexEncode, List.map_cons, List.flatten_cons,
      List.mem_append] at hmem
    rcases hmem with h1 | h2
    · simp only [WalletCrypto.hexOfByte, List.mem_cons, List.not_mem_nil,
        or_false] at h1
      rcases h1 with h1 | h1
      · exact hexDigitChar_lt16_ne_colon _ (byte_div16_lt b) h1.symm
      · exact hexDigitChar_lt16_ne_colon _ (Nat.mod_lt _ (by decide)) h1.symm
    · exact ih (by simpa [WalletCrypto.hexEncode] using h2)

theorem hexDecode_hexEncode (bs : List WalletCrypto.Byte) :
    WalletCrypto.hexDecode (WalletCrypto.hexEncode bs) = some bs := by
  induction bs with
  | nil => rfl
  | cons b rest ih =>
    show WalletCrypto.hexDecode (WalletCrypto.hexDigitChar (b.val / 16) ::
      WalletCrypto.hexDigitChar (b.val % 16) :: WalletCrypto.hexEncode rest) =
      some (b :: rest)
    simp only [WalletCrypto.hexDecode, hexVal_hexDigitChar _ (byte_div16_lt b),
      hexVal_hexDigitChar _ (Nat.mod_lt _ (by decide)), ih]
    have hv : b.val / 16 * 16 + b.val % 16 = b.val := by omega
    simp [hv]

theorem hexEncode_ne_nil (bs : List WalletCrypto.Byte) (h : bs ≠ []) :
    WalletCrypto.hexEncode bs ≠ [] := by
  cases bs with
  | nil => exact absurd rfl h
  | cons b rest => simp [WalletCrypto.hexEncode, WalletCrypto.hexOfByte]

theorem splitOnChar_ne_nil (sep : Char) (l : List Char) :
    splitOnChar sep l ≠ [] := by
  cases l with
  | nil => simp [splitOnChar]
  | cons c rest =>
    simp only [splitOnChar]
    split
    · simp
    · split <;> simp

theorem splitOnChar_no_sep (sep : Char) (l : List Char) (h : sep ∉ l) :
    splitOnChar sep l = [l] := by
  induction l with
  | nil => rfl
  | cons c rest ih =>
    have hc : ¬c = sep := fun hh => h (hh ▸ List.mem_cons_self c rest)
    have hr : sep ∉ rest := fun hh => h (List.mem_cons_of_mem c hh)
    simp [splitOnChar, ih hr, hc]

theorem splitOnChar_append (sep : Char) (a b : List Char) (ha : sep ∉ a) :
    splitOnChar sep (a ++ sep :: b) = a :: splitOnChar sep b := by
  induction a with
  | nil =>
    rcases hsb : splitOnChar sep b with _ | ⟨h, t⟩
    · exact absurd hsb (splitOnChar_ne_nil sep b)
    · simp [splitOnChar, hsb]
  | cons c rest ih =>
    have hc : ¬c = sep := fun hh => ha (hh ▸ List.mem_cons_self c rest)
    have hr : sep ∉ rest := fun hh => ha (List.mem_cons_of_mem c hh)
    simp only [List.cons_append, splitOnChar, List.append_eq, ih hr]
    rw [if_neg hc]

/-- C9 (amended).  For every non-empty secret key, decrypting the output of
encryption returns the secret: the ciphertext-colon-tag packing of
encryptSecretKey survives the round trip for any authenticated cipher with
the AES-GCM properties (inverse decryption, length-preserving ciphertext,
16-byte tag).  The empty secret is excluded: its ciphertext is empty, so
the stored column starts with the colon and decryptSecretKey rejects it as
malformed. -/
theorem c9_secret_roundtrip (c : WalletCrypto.GcmCipher)
    (key iv s : List WalletCrypto.Byte) (hs : s ≠ []) :
    WalletCrypto.decryptSecretKey c key
      (WalletCrypto.encryptSecretKey c key iv s).1
      (WalletCrypto.encryptSecretKey c key iv s).2 = .ok s := by
  have hcLen := c.enc_len key iv s
  have htLen := c.tag_len key iv s
  have hcne : WalletCrypto.hexEncode (c.enc key iv s).1 ≠ [] := by
    apply hexEncode_ne_nil
    intro hnil
    rw [hnil] at hcLen
    exact hs (List.eq_nil_of_length_eq_zero hcLen.symm)
  have htne : WalletCrypto.hexEncode (c.enc key iv s).2 ≠ [] := by
    apply hexEncode_ne_nil
    intro hnil
    rw [hnil] at htLen
    cases htLen
  simp only [WalletCrypto.encryptSecretKey, WalletCrypto.encrypt,
    WalletCrypto.decryptSecretKey]
  rw [splitOnChar_append _ _ _ (hexEncode_no_colon _),
    splitOnChar_no_sep _ _ (hexEncode_no_colon _)]
  simp only [List.getD_cons_zero, List.getD_cons_succ]
  rw [if_neg (by simp [hcne, htne])]
  simp only [WalletCrypto.decrypt, hexDecode_hexEncode]
  rw [c.dec_enc]


/-- C9 (counterexample).  The empty secret key does not round-trip: GCM
ciphertext of an empty plaintext is empty, the stored column is just
":" followed by the tag, and decryptSecretKey throws the invalid-format
error instead of returning the secret. -/
theorem c9_empty_secret_counterexample :
    WalletCrypto.decryptSecretKey WalletCrypto.plainCipher []
      (WalletCrypto.encryptSecretKey WalletCrypto.plainCipher [] [] []).1
      (WalletCrypto.encryptSecretKey WalletCrypto.plainCipher [] [] []).2 =
      .error "Invalid encrypted secret key format" := rfl

/-- C9 (witness): the amended round trip at a one-byte secret under the
concrete cipher instance. -/
theorem c9_secret_roundtrip_witness :
    WalletCrypto.decryptSecretKey WalletCrypto.plainCipher []
      (WalletCrypto.encryptSecretKey WalletCrypto.plainCipher [] []
        [(104 : WalletCrypto.Byte)]).1
      (WalletCrypto.encryptSecretKey WalletCrypto.plainCipher [] []
        [(104 : WalletCrypto.Byte)]).2 = .ok [(104 : WalletCrypto.Byte)] :=
  c9_secret_roundtrip WalletCrypto.plainCipher [] [] [(104 : WalletCrypto.Byte)]
    (by decide)

end Wally
